import Mathlib

/-!
Verification of TraceSmith's GDB backend and capture pipeline against its
natural-language specification.

Byte strings are modelled as lists of naturals (one per byte); machine
integers are naturals (or integers where the source uses signed types) with
explicit reductions modulo 2^w where overflow can matter.  Definitions are
shallow embeddings of the C++ sources under src/:

* RSPPacket          - src/gdb/rsp_packet.cpp
* GPUBreakpoint      - src/gdb/gdb_types.cpp (fnmatch modelled from POSIX)
* GPUDebugEngine     - src/gdb/gpu_debug_engine.cpp (replay cursor)
* RSPHandler         - src/gdb/rsp_handler.cpp
* ROCmProfiler       - src/capture/rocm_profiler.cpp (event accounting)
* ProcessController  - src/gdb/process_controller.cpp (software breakpoints)
-/

set_option autoImplicit false
set_option maxRecDepth 4000

namespace TraceSmith

/-! ## RSP packet framing (src/gdb/rsp_packet.cpp) -/

namespace RSPPacket

/-- Checksum of a byte string: the bytes are accumulated in a C++ uint32
(hence the reduction modulo 2^32 at every step) and the final value is
masked with 0xFF, per RSPPacket::checksum. -/
def checksum (data : List Nat) : Nat :=
  (data.foldl (fun sum c => (sum + c) % 2 ^ 32) 0) &&& 0xFF

/-- The escaping loop of RSPPacket::encode: the bytes of the special
characters RBRACE (125), HASH (35), DOLLAR (36) and STAR (42) are emitted as
125 followed by the byte xor 0x20. -/
def escapeRSP : List Nat → List Nat
  | [] => []
  | c :: rest =>
    if c = 125 ∨ c = 35 ∨ c = 36 ∨ c = 42 then
      125 :: (c ^^^ 0x20) :: escapeRSP rest
    else
      c :: escapeRSP rest

/-- One lowercase hexadecimal digit as an ASCII code, as produced by the
std::hex / std::setfill formatting used throughout rsp_packet.cpp. -/
def hexDigitCode (d : Nat) : Nat :=
  if d < 10 then 48 + d else 87 + d

/-- RSPPacket::encode: escape the payload, then frame it as
DOLLAR data HASH followed by the two hex digits of the checksum of the
escaped data. -/
def encode (data : List Nat) : List Nat :=
  let escaped := escapeRSP data
  let cs := checksum escaped
  36 :: escaped ++ [35, hexDigitCode (cs / 16), hexDigitCode (cs % 16)]

/-- Index of the last occurrence of a byte in a list
(std::string::rfind). -/
def rfindIdx : List Nat → Nat → Option Nat
  | [], _ => none
  | c :: rest, t =>
    match rfindIdx rest t with
    | some i => some (i + 1)
    | none => if c = t then some 0 else none

/-- Value of one hexadecimal digit character, upper or lower case. -/
def hexVal? (c : Nat) : Option Nat :=
  if 48 ≤ c ∧ c ≤ 57 then some (c - 48)
  else if 97 ≤ c ∧ c ≤ 102 then some (c - 87)
  else if 65 ≤ c ∧ c ≤ 70 then some (c - 55)
  else none

/-- ASCII whitespace recognised by std::stoi via isspace. -/
def isSpaceByte (c : Nat) : Bool :=
  c = 32 ∨ (9 ≤ c ∧ c ≤ 13)

/-- Longest hex-digit run: accumulated value and number of digits
consumed. -/
def hexRun : List Nat → Nat → Nat → Nat × Nat
  | [], acc, n => (acc, n)
  | c :: rest, acc, n =>
    match hexVal? c with
    | some v => hexRun rest (16 * acc + v) (n + 1)
    | none => (acc, n)

/-- std::stoi(s, nullptr, 16): skip leading whitespace, an optional sign
(45 is MINUS, 43 is PLUS), then parse the longest run of hex digits.  No
digit at all raises std::invalid_argument and a value beyond INT_MAX raises
std::out_of_range; both are caught by the caller, which we model as none. -/
def stoiHex (s : List Nat) : Option Int :=
  let s1 := s.dropWhile (fun c => isSpaceByte c)
  let neg := s1.headD 0 = 45
  let s2 := if s1.headD 0 = 45 ∨ s1.headD 0 = 43 then s1.tail else s1
  let p := hexRun s2 0 0
  if p.2 = 0 then none
  else if p.1 > 2 ^ 31 - 1 then none
  else some (if neg then -(p.1 : Int) else (p.1 : Int))

/-- The unescaping loop of RSPPacket::decode: a byte 125 followed by another
byte stands for that byte xor 0x20; a trailing 125 is copied verbatim. -/
def unescapeRSP : List Nat → List Nat
  | [] => []
  | c :: rest =>
    if c = 125 then
      match rest with
      | [] => [c]
      | d :: rest2 => (d ^^^ 0x20) :: unescapeRSP rest2
    else c :: unescapeRSP rest

/-- C++ static_cast from int to uint8_t: reduction modulo 256 (wrapping for
negative values). -/
def intToU8 (v : Int) : Nat := (v % 256).toNat

/-- RSPPacket::decode: validate the frame, verify the checksum of the raw
data against the two hex digits after the hash, and unescape. -/
def decode (packet : List Nat) : Option (List Nat) :=
  if packet.length < 4 then none
  else if packet.getD 0 0 ≠ 36 then none
  else
    match rfindIdx packet 35 with
    | none => none
    | some hashPos =>
      if hashPos < 1 then none
      else if packet.length < hashPos + 3 then none
      else
        let data := (packet.drop 1).take (hashPos - 1)
        let csStr := (packet.drop (hashPos + 1)).take 2
        match stoiHex csStr with
        | none => none
        | some expected =>
          if checksum data ≠ intToU8 expected then none
          else some (unescapeRSP data)

end RSPPacket

/-- Bytes of a Lean string literal, for stating the concrete scenarios. -/
def strBytes (s : String) : List Nat := s.data.map Char.toNat

/-! ### Round-trip lemmas for the packet codec -/

namespace RSPPacket

theorem unescape_cons_of_ne (c : Nat) (l : List Nat) (h : c ≠ 125) :
    unescapeRSP (c :: l) = c :: unescapeRSP l := by
  rw [unescapeRSP.eq_def]
  simp only [if_neg h]

theorem unescape_escape (s : List Nat) : unescapeRSP (escapeRSP s) = s := by
  induction s with
  | nil => simp [escapeRSP, unescapeRSP]
  | cons c rest ih =>
    by_cases h : c = 125 ∨ c = 35 ∨ c = 36 ∨ c = 42
    · have hx : (c ^^^ 0x20) ^^^ 0x20 = c := by
        rw [Nat.xor_assoc]; simp
      simp only [escapeRSP, if_pos h]
      simp [unescapeRSP, hx, ih]
    · have hc : c ≠ 125 := fun hc => h (Or.inl hc)
      simp only [escapeRSP, if_neg h]
      rw [unescape_cons_of_ne c _ hc, ih]

theorem hash_not_mem_escape (s : List Nat) : 35 ∉ escapeRSP s := by
  induction s with
  | nil => simp [escapeRSP]
  | cons c rest ih =>
    by_cases h : c = 125 ∨ c = 35 ∨ c = 36 ∨ c = 42
    · simp only [escapeRSP, if_pos h]
      intro hm
      simp only [List.mem_cons] at hm
      rcases hm with h1 | h1 | h1
      · omega
      · rcases h with rfl | rfl | rfl | rfl <;> exact absurd h1 (by decide)
      · exact ih h1
    · simp only [escapeRSP, if_neg h]
      intro hm
      simp only [List.mem_cons] at hm
      rcases hm with h1 | h1
      · exact h (Or.inr (Or.inl h1.symm))
      · exact ih h1

theorem rfind_none_of_not_mem (l : List Nat) (t : Nat) (h : t ∉ l) :
    rfindIdx l t = none := by
  induction l with
  | nil => rfl
  | cons c rest ih =>
    have h1 : t ∉ rest := fun hm => h (List.mem_cons_of_mem _ hm)
    have h2 : c ≠ t := fun he => h (he ▸ List.mem_cons_self c rest)
    simp [rfindIdx, ih h1, h2]

theorem rfind_append (a b : List Nat) (t : Nat) (ha : t ∉ a) (hb : t ∉ b) :
    rfindIdx (a ++ t :: b) t = some a.length := by
  induction a with
  | nil =>
    simp only [List.nil_append, rfindIdx, rfind_none_of_not_mem b t hb]
    simp
  | cons c rest ih =>
    have h1 : t ∉ rest := fun hm => ha (List.mem_cons_of_mem _ hm)
    simp only [List.cons_append, rfindIdx, List.append_eq, ih h1, List.length_cons]

theorem checksum_lt (data : List Nat) : checksum data < 256 := by
  have : (data.foldl (fun sum c => (sum + c) % 2 ^ 32) 0) &&& 0xFF ≤ 0xFF :=
    Nat.and_le_right
  simpa [checksum] using Nat.lt_succ_of_le this

theorem hexDigit_code_cases :
    ∀ d < 16,
      hexVal? (hexDigitCode d) = some d ∧
      isSpaceByte (hexDigitCode d) = false ∧
      hexDigitCode d ≠ 45 ∧ hexDigitCode d ≠ 43 ∧ hexDigitCode d ≠ 35 := by
  decide

theorem stoi_two_hex_digits (a b : Nat) (ha : a < 16) (hb : b < 16) :
    stoiHex [hexDigitCode a, hexDigitCode b] = some ((16 * a + b : Nat) : Int) := by
  obtain ⟨hva, hsa, hm1, hp1, -⟩ := hexDigit_code_cases a ha
  obtain ⟨hvb, hsb, -, -, -⟩ := hexDigit_code_cases b hb
  have hdrop :
      ([hexDigitCode a, hexDigitCode b].dropWhile fun c => isSpaceByte c)
        = [hexDigitCode a, hexDigitCode b] := by
    rw [List.dropWhile_cons_of_neg]
    simp [hsa]
  have hrun : hexRun [hexDigitCode a, hexDigitCode b] 0 0 = (16 * a + b, 2) := by
    simp [hexRun, hva, hvb]
  have h31 : ¬ (16 * a + b > 2 ^ 31 - 1) := by omega
  simp [stoiHex, hdrop, hm1, hp1, hrun, h31]
  omega

theorem foldl_mod32_mod256 (l : List Nat) :
    ∀ acc, (l.foldl (fun a c => (a + c) % 2 ^ 32) acc) % 256 = (acc + l.sum) % 256 := by
  induction l with
  | nil => intro acc; simp
  | cons c rest ih =>
    intro acc
    have h := ih ((acc + c) % 2 ^ 32)
    simp only [List.foldl_cons, List.sum_cons] at h ⊢
    omega

theorem checksum_eq_sum_mod (s : List Nat) : checksum s = s.sum % 256 := by
  have h255 : (0xFF : Nat) = 2 ^ 8 - 1 := rfl
  rw [checksum, h255, Nat.and_pow_two_sub_one_eq_mod]
  have := foldl_mod32_mod256 s 0
  simpa using this

theorem decode_encode (s : List Nat) : decode (encode s) = some s := by
  have hcslt : checksum (escapeRSP s) < 256 := checksum_lt (escapeRSP s)
  obtain ⟨-, -, -, -, hne1⟩ :=
    hexDigit_code_cases (checksum (escapeRSP s) / 16) (by omega)
  obtain ⟨-, -, -, -, hne2⟩ :=
    hexDigit_code_cases (checksum (escapeRSP s) % 16) (by omega)
  set esc := escapeRSP s with hesc
  set cs := checksum esc with hcs
  set d1 := hexDigitCode (cs / 16) with hd1
  set d2 := hexDigitCode (cs % 16) with hd2
  have hpacket : encode s = (36 :: esc) ++ 35 :: [d1, d2] := by
    simp [encode, hesc, hd1, hd2, hcs]
  have hnoa : 35 ∉ 36 :: esc := by
    intro hm
    simp only [List.mem_cons] at hm
    rcases hm with hm | hm
    · omega
    · exact hash_not_mem_escape s hm
  have hnob : 35 ∉ [d1, d2] := by
    intro hm
    simp only [List.mem_cons, List.not_mem_nil] at hm
    rcases hm with hm | hm | hm
    · exact hne1 hm.symm
    · exact hne2 hm.symm
    · exact hm
  have hrf : rfindIdx ((36 :: esc) ++ 35 :: [d1, d2]) 35 = some (esc.length + 1) := by
    have := rfind_append (36 :: esc) [d1, d2] 35 hnoa hnob
    simpa using this
  have hlen : ((36 :: esc) ++ 35 :: [d1, d2]).length = esc.length + 4 := by simp
  rw [hpacket]
  rw [decode]
  rw [if_neg (by simp [hlen]), if_neg (by simp), hrf]
  dsimp only
  rw [if_neg (by omega)]
  rw [if_neg (by rw [hlen]; omega)]
  have hdata :
      ((((36 :: esc) ++ 35 :: [d1, d2]).drop 1).take (esc.length + 1 - 1)) = esc := by
    simp only [Nat.add_sub_cancel, List.cons_append, List.drop_succ_cons, List.drop_zero]
    exact List.take_left esc _
  have hcsStr :
      ((((36 :: esc) ++ 35 :: [d1, d2]).drop (esc.length + 1 + 1)).take 2) = [d1, d2] := by
    have hsplit : (36 :: esc) ++ 35 :: [d1, d2] = (36 :: esc ++ [35]) ++ [d1, d2] := by
      simp
    rw [hsplit]
    have hlen2 : (36 :: esc ++ [35]).length = esc.length + 1 + 1 := by
      simp only [List.length_cons, List.length_append, List.length_nil]
    rw [← hlen2, List.drop_left]
    rfl
  rw [hdata, hcsStr]
  rw [hd1, hd2, stoi_two_hex_digits _ _ (by omega) (by omega)]
  dsimp only
  have hval : 16 * (cs / 16) + cs % 16 = cs := Nat.div_add_mod cs 16
  have hu8 : intToU8 ((16 * (cs / 16) + cs % 16 : Nat) : Int) = cs := by
    rw [hval]
    simp only [intToU8]
    omega
  rw [hu8, if_neg (by simp [hcs]), hesc, unescape_escape]

end RSPPacket

/-! ## Event model

The event kinds live in a common header (tracesmith/common/types.hpp) that is
not part of the sources at hand; the enumeration below is modelled from the
spec, section 3.2.  TraceEvent carries the scalar fields and the name used by
the GDB backend; the optional payloads (kernel params, memory params, call
stack, flow info, metadata) are not inspected by any operation verified here
and are omitted. -/

/-- Modelled from the spec: the event kind enumeration of section 3.2
(tracesmith/common/types.hpp is absent from the sources). -/
inductive EventType
  | KernelLaunch | KernelComplete
  | MemcpyH2D | MemcpyD2H | MemcpyD2D | MemsetDevice
  | StreamSync | DeviceSync | EventRecord | EventSync
  | StreamCreate | StreamDestroy
  | MemAlloc | MemFree
  | Marker | RangeStart | RangeEnd | Custom
  deriving DecidableEq, BEq, Repr

/-- Modelled from the spec: the scalar fields of a trace event
(section 3.2), with the optional payloads omitted (no verified operation
reads them). -/
structure TraceEvent where
  type : EventType := EventType.KernelLaunch
  timestamp : Nat := 0
  duration : Nat := 0
  device_id : Nat := 0
  stream_id : Nat := 0
  correlation_id : Nat := 0
  thread_id : Nat := 0
  name : String := ""
  deriving DecidableEq, Repr

/-! ## GPU breakpoints (src/gdb/gdb_types.cpp, include/tracesmith/gdb/gdb_types.hpp) -/

/-- GPU breakpoint kinds, from gdb_types.hpp. -/
inductive GPUBreakpointType
  | KernelLaunch | KernelComplete
  | MemAlloc | MemFree
  | MemcpyH2D | MemcpyD2H | MemcpyD2D
  | Synchronize | AnyEvent
  deriving DecidableEq, BEq, Repr

/-- GPU breakpoint record, from gdb_types.hpp (ids are C++ ints, the device
filter uses -1 for any device). -/
structure GPUBreakpoint where
  id : Int := -1
  type : GPUBreakpointType := GPUBreakpointType.KernelLaunch
  kernel_pattern : String := ""
  device_id : Int := -1
  enabled : Bool := true
  hit_count : Nat := 0
  deriving DecidableEq, Repr

/-! ### POSIX fnmatch (flags = 0), modelled

GPUBreakpoint::matches delegates wildcard matching to libc fnmatch, which is
external to the repository; it is modelled here from the POSIX description:
STAR matches any (possibly empty) run, QMARK matches one character,
BACKSLASH quotes the next pattern character (a trailing backslash matches
nothing), and a bracket expression matches one character against a set that
may be negated by a leading BANG or CARET and may contain ranges; an
unterminated bracket expression matches a literal open bracket.  The matcher
carries explicit fuel; every recursive step lowers the combined length of
pattern and string, so the initial fuel (that combined length plus one) is
never exhausted. -/

/-- Strip a leading negation marker from a bracket expression body. -/
def bracketNeg : List Char → Bool × List Char
  | c :: r => if c = '!' ∨ c = '^' then (true, r) else (false, c :: r)
  | [] => (false, [])

/-- Split a bracket expression body at the closing bracket; a closing
bracket in first position is an ordinary member.  Returns none when the
expression is unterminated. -/
def findClose : List Char → Bool → Option (List Char × List Char)
  | [], _ => none
  | c :: r, first =>
    if c = ']' ∧ first = false then some ([], r)
    else
      match findClose r false with
      | some (co, re) => some (c :: co, re)
      | none => none

/-- Membership of a character in a bracket-expression set, with ranges;
a dash in last position is an ordinary member. -/
def bracketMember : List Char → Char → Bool
  | [], _ => false
  | [a], c => a == c
  | [a, b], c => a == c || b == c
  | a :: b :: d :: rest, c =>
    if b = '-' then
      if a ≤ c ∧ c ≤ d then true else bracketMember rest c
    else
      a == c || bracketMember (b :: d :: rest) c

/-- Fueled glob matcher; see the section comment for the fuel argument. -/
def globMatchF : Nat → List Char → List Char → Bool
  | 0, _, _ => false
  | _ + 1, [], [] => true
  | _ + 1, [], _ :: _ => false
  | f + 1, c :: p, s =>
    if c = '*' then
      globMatchF f p s ||
        (match s with
          | [] => false
          | _ :: s2 => globMatchF f (c :: p) s2)
    else if c = '?' then
      match s with
      | [] => false
      | _ :: s2 => globMatchF f p s2
    else if c = '\\' then
      match p, s with
      | e :: p2, d :: s2 => e == d && globMatchF f p2 s2
      | _, _ => false
    else if c = '[' then
      match s with
      | [] => false
      | d :: s2 =>
        let nl := bracketNeg p
        match findClose nl.2 true with
        | some (content, rest) =>
          (bracketMember content d != nl.1) && globMatchF f rest s2
        | none => c == d && globMatchF f p s2
    else
      match s with
      | [] => false
      | d :: s2 => c == d && globMatchF f p s2

/-- Modelled from the spec: shell-style glob match of a name against a
pattern (libc fnmatch with flags 0, true when fnmatch returns 0). -/
def fnmatchGlob (pattern name : List Char) : Bool :=
  globMatchF (pattern.length + name.length + 1) pattern name

/-- The type_match switch of GPUBreakpoint::matches. -/
def typeCorresponds : GPUBreakpointType → EventType → Bool
  | GPUBreakpointType.KernelLaunch, t => t == EventType.KernelLaunch
  | GPUBreakpointType.KernelComplete, t => t == EventType.KernelComplete
  | GPUBreakpointType.MemAlloc, t => t == EventType.MemAlloc
  | GPUBreakpointType.MemFree, t => t == EventType.MemFree
  | GPUBreakpointType.MemcpyH2D, t => t == EventType.MemcpyH2D
  | GPUBreakpointType.MemcpyD2H, t => t == EventType.MemcpyD2H
  | GPUBreakpointType.MemcpyD2D, t => t == EventType.MemcpyD2D
  | GPUBreakpointType.Synchronize, t =>
    t == EventType.StreamSync || t == EventType.DeviceSync || t == EventType.EventSync
  | GPUBreakpointType.AnyEvent, _ => true

/-- GPUBreakpoint::matches (gdb_types.cpp): disabled breakpoints never
match; the event kind must correspond to the breakpoint kind; a set device
filter (device_id >= 0, compared after the C++ cast to uint32) must equal
the event's device; kernel-kind breakpoints with a non-empty pattern
glob-match the event name. -/
def GPUBreakpoint.matches (bp : GPUBreakpoint) (e : TraceEvent) : Bool :=
  if bp.enabled = false then false
  else if typeCorresponds bp.type e.type = false then false
  else if 0 ≤ bp.device_id ∧ bp.device_id.toNat % 2 ^ 32 ≠ e.device_id then false
  else if (bp.type = GPUBreakpointType.KernelLaunch ∨
           bp.type = GPUBreakpointType.KernelComplete) ∧
          bp.kernel_pattern ≠ "" ∧
          fnmatchGlob bp.kernel_pattern.data e.name.data = false then false
  else true

/-- Scenario S5 breakpoint: kernel-launch breakpoint on pattern matmul-star. -/
def bpMatmul : GPUBreakpoint :=
  { id := 1, type := GPUBreakpointType.KernelLaunch, kernel_pattern := "matmul*" }

/-- Scenario S5 breakpoint after disabling. -/
def bpMatmulDisabled : GPUBreakpoint := { bpMatmul with enabled := false }

/-- Scenario S5 event: a kernel launch named matmul_f32. -/
def evMatmulF32 : TraceEvent :=
  { type := EventType.KernelLaunch, name := "matmul_f32" }

/-- Scenario S5 event: a kernel launch named conv2d. -/
def evConv2d : TraceEvent :=
  { type := EventType.KernelLaunch, name := "conv2d" }

/-- C2: GPU breakpoint matching.  Disabled breakpoints never match; a kind
mismatch never matches; a set device filter that differs never matches; for
kernel-kind breakpoints that pass those checks the result is exactly the
glob match of the pattern against the event name (empty pattern matches
all); concretely the pattern matmul-star matches a KernelLaunch named
matmul_f32, rejects conv2d, and matches nothing once disabled. -/
theorem C2_gpu_breakpoint_matching :
    (∀ (bp : GPUBreakpoint) (e : TraceEvent),
      bp.enabled = false → bp.matches e = false) ∧
    (∀ (bp : GPUBreakpoint) (e : TraceEvent),
      typeCorresponds bp.type e.type = false → bp.matches e = false) ∧
    (∀ (bp : GPUBreakpoint) (e : TraceEvent),
      0 ≤ bp.device_id → bp.device_id.toNat % 2 ^ 32 ≠ e.device_id →
      bp.matches e = false) ∧
    (∀ (bp : GPUBreakpoint) (e : TraceEvent),
      bp.enabled = true →
      (bp.type = GPUBreakpointType.KernelLaunch ∨
        bp.type = GPUBreakpointType.KernelComplete) →
      typeCorresponds bp.type e.type = true →
      (0 ≤ bp.device_id → bp.device_id.toNat % 2 ^ 32 = e.device_id) →
      bp.matches e =
        (bp.kernel_pattern == "" || fnmatchGlob bp.kernel_pattern.data e.name.data)) ∧
    bpMatmul.matches evMatmulF32 = true ∧
    bpMatmul.matches evConv2d = false ∧
    bpMatmulDisabled.matches evMatmulF32 = false := by
  refine ⟨?_, ?_, ?_, ?_, by decide, by decide, by decide⟩
  · intro bp e h
    simp [GPUBreakpoint.matches, h]
  · intro bp e h
    simp [GPUBreakpoint.matches, h]
  · intro bp e h1 h2
    by_cases he : bp.enabled = false
    · simp [GPUBreakpoint.matches, he]
    · by_cases ht : typeCorresponds bp.type e.type = false
      · simp [GPUBreakpoint.matches, ht]
      · simp only [GPUBreakpoint.matches, if_neg he, if_neg ht]
        rw [if_pos ⟨h1, h2⟩]
  · intro bp e he hk ht hd
    have he' : ¬ bp.enabled = false := by simp [he]
    have ht' : ¬ typeCorresponds bp.type e.type = false := by simp [ht]
    have hd' : ¬ (0 ≤ bp.device_id ∧ bp.device_id.toNat % 2 ^ 32 ≠ e.device_id) := by
      rintro ⟨h1, h2⟩
      exact h2 (hd h1)
    simp only [GPUBreakpoint.matches, if_neg he', if_neg ht', if_neg hd']
    by_cases hp : bp.kernel_pattern = ""
    · simp [hp]
    · by_cases hf : fnmatchGlob bp.kernel_pattern.data e.name.data = false
      · rw [if_pos ⟨hk, hp, hf⟩]
        simp [hp, hf]
      · have hnc : ¬ ((bp.type = GPUBreakpointType.KernelLaunch ∨
            bp.type = GPUBreakpointType.KernelComplete) ∧
            bp.kernel_pattern ≠ "" ∧
            fnmatchGlob bp.kernel_pattern.data e.name.data = false) := by
          rintro ⟨-, -, hf2⟩
          exact hf hf2
        rw [if_neg hnc]
        simp only [Bool.not_eq_false] at hf
        simp [hp, hf]

/-- Witness for C2: the disabled-breakpoint clause applied to the concrete
scenario S5 breakpoint and event. -/
theorem C2_witness : bpMatmulDisabled.matches evMatmulF32 = false :=
  C2_gpu_breakpoint_matching.1 bpMatmulDisabled evMatmulF32 rfl

/-! ## Trace replay (src/gdb/gpu_debug_engine.cpp) -/

/-- Replay state, from gdb_types.hpp. -/
structure ReplayState where
  active : Bool := false
  paused : Bool := false
  current_event_index : Nat := 0
  total_events : Nat := 0
  current_timestamp : Nat := 0
  total_duration : Nat := 0
  trace_file : String := ""
  deriving DecidableEq, Repr

/-- ReplayControl::Command, from gdb_types.hpp. -/
inductive ReplayCommand
  | Start | Stop | Pause | Resume
  | StepEvent | StepKernel | GotoTimestamp | GotoEvent
  deriving DecidableEq, Repr

/-- ReplayControl, from gdb_types.hpp. -/
structure ReplayControl where
  command : ReplayCommand := ReplayCommand.Start
  target_timestamp : Nat := 0
  target_event_index : Nat := 0
  deriving DecidableEq, Repr

/-- The replay-related state of GPUDebugEngine: the loaded event list and
the replay cursor. -/
structure EngineReplay where
  replay_events : List TraceEvent := []
  replay_state : ReplayState := {}
  deriving DecidableEq, Repr

/-- GPUDebugEngine::loadTrace with the file access abstracted away: the
argument list is the event list produced by SBTReader::readAll (open or
validation failures return false before the code modelled here runs).
Clears the loaded events, rejects an empty record, otherwise initialises
the replay cursor at the first event. -/
def loadTrace (s : EngineReplay) (filename : String) (events : List TraceEvent) :
    Bool × EngineReplay :=
  let s1 := { s with replay_events := events }
  if events = [] then (false, s1)
  else
    (true,
      { s1 with
        replay_state :=
          { trace_file := filename
            total_events := events.length
            current_event_index := 0
            current_timestamp := (events.headD {}).timestamp
            total_duration :=
              (events.getLast?.getD {}).timestamp - (events.headD {}).timestamp
            active := false
            paused := false } })

/-- The linear scan of the GotoTimestamp case: index and timestamp of the
first event whose timestamp reaches the target, if any. -/
def findFirstGe : List TraceEvent → Nat → Option (Nat × Nat)
  | [], _ => none
  | e :: rest, t =>
    if t ≤ e.timestamp then some (0, e.timestamp)
    else (findFirstGe rest t).map (fun p => (p.1 + 1, p.2))

/-- The while loop of the StepKernel case: advance the index until it runs
off the end or lands on a KernelLaunch event (which also updates the
timestamp). -/
def stepKernelLoop (events : List TraceEvent) (idx ts : Nat) : Nat × Nat :=
  if idx < events.length then
    if idx + 1 < events.length ∧ (events.getD (idx + 1) {}).type = EventType.KernelLaunch then
      (idx + 1, (events.getD (idx + 1) {}).timestamp)
    else
      stepKernelLoop events (idx + 1) ts
  else (idx, ts)
  termination_by events.length - idx

/-- GPUDebugEngine::controlReplay: refuse when no events are loaded, else
dispatch on the command.  Returns the C++ bool result together with the
updated engine state. -/
def controlReplay (s : EngineReplay) (ctrl : ReplayControl) : Bool × EngineReplay :=
  if s.replay_events = [] then (false, s)
  else
    let st := s.replay_state
    match ctrl.command with
    | ReplayCommand.Start =>
      (true, { s with replay_state :=
        { st with active := true, paused := false, current_event_index := 0 } })
    | ReplayCommand.Stop =>
      (true, { s with replay_state :=
        { st with active := false, paused := false, current_event_index := 0 } })
    | ReplayCommand.Pause =>
      (true, { s with replay_state := { st with paused := true } })
    | ReplayCommand.Resume =>
      (true, { s with replay_state := { st with paused := false } })
    | ReplayCommand.StepEvent =>
      if st.current_event_index < s.replay_events.length then
        if st.current_event_index + 1 < s.replay_events.length then
          (true, { s with replay_state :=
            { st with
              current_event_index := st.current_event_index + 1
              current_timestamp :=
                (s.replay_events.getD (st.current_event_index + 1) {}).timestamp } })
        else
          (true, { s with replay_state :=
            { st with current_event_index := st.current_event_index + 1 } })
      else (true, s)
    | ReplayCommand.StepKernel =>
      let p := stepKernelLoop s.replay_events st.current_event_index st.current_timestamp
      (true, { s with replay_state :=
        { st with current_event_index := p.1, current_timestamp := p.2 } })
    | ReplayCommand.GotoTimestamp =>
      match findFirstGe s.replay_events ctrl.target_timestamp with
      | some p =>
        (true, { s with replay_state :=
          { st with current_event_index := p.1, current_timestamp := p.2 } })
      | none => (true, s)
    | ReplayCommand.GotoEvent =>
      if ctrl.target_event_index < s.replay_events.length then
        (true, { s with replay_state :=
          { st with
            current_event_index := ctrl.target_event_index
            current_timestamp :=
              (s.replay_events.getD ctrl.target_event_index {}).timestamp } })
      else (true, s)

/-- GPUDebugEngine::getCurrentReplayEvent: the event under the cursor, none
when replay is inactive or the cursor ran off the end. -/
def getCurrentReplayEvent (s : EngineReplay) : Option TraceEvent :=
  if s.replay_state.active = false ∨
      s.replay_events.length ≤ s.replay_state.current_event_index then none
  else some (s.replay_events.getD s.replay_state.current_event_index {})

theorem findFirstGe_some (es : List TraceEvent) (t : Nat) :
    ∀ i ts, findFirstGe es t = some (i, ts) →
      i < es.length ∧ ts = (es.getD i {}).timestamp ∧ t ≤ ts ∧
      ∀ j, j < i → (es.getD j {}).timestamp < t := by
  induction es with
  | nil => intro i ts h; simp [findFirstGe] at h
  | cons e rest ih =>
    intro i ts h
    by_cases hle : t ≤ e.timestamp
    · simp only [findFirstGe, if_pos hle, Option.some.injEq, Prod.mk.injEq] at h
      obtain ⟨rfl, rfl⟩ := h
      refine ⟨by simp, by simp, hle, fun j hj => absurd hj (by omega)⟩
    · simp only [findFirstGe, if_neg hle] at h
      cases hrec : findFirstGe rest t with
      | none => rw [hrec] at h; simp at h
      | some p =>
        rw [hrec] at h
        have h' : (p.1 + 1, p.2) = (i, ts) := by simpa using h
        rw [Prod.mk.injEq] at h'
        obtain ⟨rfl, rfl⟩ := h'
        obtain ⟨h1, h2, h3, h4⟩ := ih p.1 p.2 hrec
        refine ⟨by simp only [List.length_cons]; omega, by simpa using h2, h3, ?_⟩
        intro j hj
        cases j with
        | zero => simp only [List.getD_cons_zero]; omega
        | succ j0 =>
          have := h4 j0 (by omega)
          simpa using this

theorem findFirstGe_none (es : List TraceEvent) (t : Nat) :
    findFirstGe es t = none →
      ∀ j, j < es.length → (es.getD j {}).timestamp < t := by
  induction es with
  | nil => intro _ j hj; simp at hj
  | cons e rest ih =>
    intro h j hj
    by_cases hle : t ≤ e.timestamp
    · simp [findFirstGe, if_pos hle] at h
    · simp only [findFirstGe, if_neg hle] at h
      cases hrec : findFirstGe rest t with
      | some p => rw [hrec] at h; simp at h
      | none =>
        cases j with
        | zero => simp only [List.getD_cons_zero]; omega
        | succ j0 =>
          have hj0 : j0 < rest.length := by
            simp only [List.length_cons] at hj; omega
          simpa using ih hrec j0 hj0

/-- Scenario S6 trace: five events at timestamps 100..500. -/
def ev5 : List TraceEvent :=
  [{ timestamp := 100 }, { timestamp := 200 }, { timestamp := 300 },
   { timestamp := 400 }, { timestamp := 500 }]

/-- Engine state right after loading the five-event scenario trace. -/
def replayS5 : EngineReplay := (loadTrace {} "trace.sbt" ev5).2

/-- A Start replay command. -/
def startCtrl : ReplayControl := { command := ReplayCommand.Start }

/-- A StepEvent replay command. -/
def stepCtrl : ReplayControl := { command := ReplayCommand.StepEvent }

/-- A GotoTimestamp replay command with the given target. -/
def gotoCtrl (t : Nat) : ReplayControl :=
  { command := ReplayCommand.GotoTimestamp, target_timestamp := t }

/-- A GotoEvent replay command with the given target index. -/
def gotoEventCtrl (i : Nat) : ReplayControl :=
  { command := ReplayCommand.GotoEvent, target_event_index := i }

/-- C3 (amended): GotoTimestamp moves the cursor to the first event whose
timestamp reaches the target and adopts that timestamp; when no event
reaches the target (in particular when the target is beyond the last
event's timestamp) the command returns true but leaves the engine state
unchanged - there is no clamping to total_events. -/
theorem C3_goto_timestamp (s : EngineReplay) (target : Nat)
    (h : s.replay_events ≠ []) :
    (controlReplay s (gotoCtrl target)).1 = true ∧
    ((∃ i, i < s.replay_events.length ∧
        target ≤ (s.replay_events.getD i {}).timestamp ∧
        (∀ j, j < i → (s.replay_events.getD j {}).timestamp < target) ∧
        (controlReplay s (gotoCtrl target)).2.replay_state.current_event_index = i ∧
        (controlReplay s (gotoCtrl target)).2.replay_state.current_timestamp =
          (s.replay_events.getD i {}).timestamp) ∨
      ((∀ j, j < s.replay_events.length →
          (s.replay_events.getD j {}).timestamp < target) ∧
        (controlReplay s (gotoCtrl target)).2 = s)) := by
  cases hf : findFirstGe s.replay_events target with
  | some p =>
    obtain ⟨h1, h2, h3, h4⟩ :=
      findFirstGe_some s.replay_events target p.1 p.2 (by rw [hf])
    refine ⟨by simp [controlReplay, gotoCtrl, h, hf], Or.inl ?_⟩
    refine ⟨p.1, h1, h2 ▸ h3, h4, ?_, ?_⟩
    · simp [controlReplay, gotoCtrl, h, hf]
    · simp [controlReplay, gotoCtrl, h, hf]
      simpa [List.getD] using h2
  | none =>
    refine ⟨by simp [controlReplay, gotoCtrl, h, hf], Or.inr ?_⟩
    exact ⟨findFirstGe_none s.replay_events target hf,
      by simp [controlReplay, gotoCtrl, h, hf]⟩

/-- Witness for C3: the amended GotoTimestamp theorem applied to the
concrete loaded five-event trace with target 350. -/
theorem C3_witness : (controlReplay replayS5 (gotoCtrl 350)).1 = true :=
  (C3_goto_timestamp replayS5 350 (by decide)).1

/-- Counterexample for C3 as stated: on the loaded five-event trace
(total_events = 5) a GotoTimestamp to 600 - beyond the last timestamp
500 - leaves current_event_index at 0 instead of clamping it to
total_events. -/
theorem C3_counterexample :
    (controlReplay replayS5 (gotoCtrl 600)).2.replay_state.current_event_index = 0 ∧
    replayS5.replay_state.total_events = 5 ∧
    (controlReplay replayS5 (gotoCtrl 600)).2.replay_state.current_event_index ≠ 5 := by
  decide

/-- The scenario S6 state after load and start. -/
def s8Started : EngineReplay := (controlReplay replayS5 startCtrl).2

/-- The scenario S6 state after one StepEvent. -/
def s8Stepped : EngineReplay := (controlReplay s8Started stepCtrl).2

/-- The scenario S6 state after GotoTimestamp 350. -/
def s8At350 : EngineReplay := (controlReplay s8Stepped (gotoCtrl 350)).2

/-- The scenario S6 state after the out-of-range GotoEvent 10. -/
def s8AfterGotoEvent : EngineReplay := (controlReplay s8At350 (gotoEventCtrl 10)).2

/-- C8 (amended): on the loaded five-event trace, StepEvent from index 0
moves the cursor to index 1, timestamp 200; GotoTimestamp 350 moves it to
index 3, timestamp 400; GotoEvent 10 is out of range and is ignored - the
cursor stays at index 3, timestamp 400, and still reports the index-3
event rather than end-of-trace. -/
theorem C8_replay_cursor :
    s8Stepped.replay_state.current_event_index = 1 ∧
    s8Stepped.replay_state.current_timestamp = 200 ∧
    s8At350.replay_state.current_event_index = 3 ∧
    s8At350.replay_state.current_timestamp = 400 ∧
    s8AfterGotoEvent.replay_state.current_event_index = 3 ∧
    s8AfterGotoEvent.replay_state.current_timestamp = 400 ∧
    getCurrentReplayEvent s8AfterGotoEvent = some { timestamp := 400 } := by
  decide

/-- Counterexample for C8 as stated: after the scenario sequence the
GotoEvent 10 command does not clamp the cursor to the end of the five-event
trace (the index is 3, neither 4 nor 5) and the cursor still reports an
event, not end-of-trace. -/
theorem C8_counterexample :
    s8AfterGotoEvent.replay_state.current_event_index = 3 ∧
    s8AfterGotoEvent.replay_state.current_event_index ≠ 4 ∧
    s8AfterGotoEvent.replay_state.current_event_index ≠ 5 ∧
    getCurrentReplayEvent s8AfterGotoEvent ≠ none := by
  decide

/-- C10: the engine refuses replay on an empty event list - loadTrace
returns false when the record read from the file holds zero events, and
every controlReplay command returns false and leaves the engine state
(cursor included) untouched while no events are loaded. -/
theorem C10_empty_trace_guard :
    (∀ (s : EngineReplay) (file : String), (loadTrace s file []).1 = false) ∧
    (∀ (s : EngineReplay) (ctrl : ReplayControl),
      s.replay_events = [] → controlReplay s ctrl = (false, s)) := by
  constructor
  · intro s file
    simp [loadTrace]
  · intro s ctrl h
    simp [controlReplay, h]

/-- Witness for C10: the guard applied to the empty engine state, for the
load of an empty record and for a StepEvent command. -/
theorem C10_witness :
    (loadTrace {} "trace.sbt" []).1 = false ∧
    controlReplay {} stepCtrl = (false, {}) :=
  ⟨C10_empty_trace_guard.1 {} "trace.sbt",
    C10_empty_trace_guard.2 {} stepCtrl rfl⟩

/-- C1: RSP framing.  For every byte string s, decode (encode s) returns s
and checksum s is the sum of the bytes of s modulo 256; concretely,
encode "OK" is the frame "$OK#9a", decode "$OK#9a" recovers "OK", and
decode "$OK#00" is rejected (wrong checksum). -/
theorem C1_rsp_framing_round_trip :
    (∀ s : List Nat, RSPPacket.decode (RSPPacket.encode s) = some s) ∧
    (∀ s : List Nat, RSPPacket.checksum s = s.sum % 256) ∧
    RSPPacket.encode (strBytes "OK") = strBytes "$OK#9a" ∧
    RSPPacket.decode (strBytes "$OK#9a") = some (strBytes "OK") ∧
    RSPPacket.decode (strBytes "$OK#00") = none :=
  ⟨RSPPacket.decode_encode, RSPPacket.checksum_eq_sum_mod,
    by decide, by decide, by decide⟩

/-! ## Capture-event accounting (src/capture/rocm_profiler.cpp) -/

namespace ROCmProfiler

/-- The event-accounting state of ROCmProfiler: the two uint64 counters
(reduced modulo 2^64 where they are incremented), the stored event vector
and the configured buffer capacity.  The live callback fires inside
addEvent before the drop check but does not touch this state. -/
structure ProfilerState where
  events_captured : Nat := 0
  events_dropped : Nat := 0
  events : List TraceEvent := []
  buffer_size : Nat := 0
  deriving DecidableEq, Repr

/-- ROCmProfiler::addEvent: unconditionally increment events_captured,
then either count the event as dropped (buffer limit configured and
reached) or append it to the stored events. -/
def addEvent (s : ProfilerState) (e : TraceEvent) : ProfilerState :=
  let s1 := { s with events_captured := (s.events_captured + 1) % 2 ^ 64 }
  if 0 < s1.buffer_size ∧ s1.buffer_size ≤ s1.events.length then
    { s1 with events_dropped := (s1.events_dropped + 1) % 2 ^ 64 }
  else
    { s1 with events := s1.events ++ [e] }

/-- A sequence of submission attempts. -/
def submitAll (s : ProfilerState) (es : List TraceEvent) : ProfilerState :=
  es.foldl addEvent s

theorem addEvent_step (s : ProfilerState) (e : TraceEvent)
    (hc : s.events_captured + 1 < 2 ^ 64) (hd : s.events_dropped + 1 < 2 ^ 64) :
    (addEvent s e).events_captured = s.events_captured + 1 ∧
    (addEvent s e).events_dropped + (addEvent s e).events.length =
      s.events_dropped + s.events.length + 1 ∧
    (addEvent s e).events_dropped ≤ s.events_dropped + 1 := by
  unfold addEvent
  dsimp only
  split
  · dsimp only
    rw [Nat.mod_eq_of_lt hc, Nat.mod_eq_of_lt hd]
    exact ⟨rfl, by omega, by omega⟩
  · dsimp only
    rw [Nat.mod_eq_of_lt hc]
    refine ⟨rfl, ?_, by omega⟩
    simp only [List.length_append, List.length_cons, List.length_nil]
    omega

/-- C4 (amended): every submission attempt is counted in events_captured -
dropped attempts included - and every attempt lands exactly once in either
events_dropped or the stored buffer.  Hence events_captured alone equals
the number of attempts, and events_captured + events_dropped exceeds the
number of attempts by the number of drops. -/
theorem C4_drop_accounting (s : ProfilerState) (es : List TraceEvent)
    (hc : s.events_captured + es.length < 2 ^ 64)
    (hd : s.events_dropped + es.length < 2 ^ 64) :
    (submitAll s es).events_captured = s.events_captured + es.length ∧
    (submitAll s es).events_dropped + (submitAll s es).events.length =
      s.events_dropped + s.events.length + es.length := by
  induction es generalizing s with
  | nil => simp [submitAll]
  | cons e rest ih =>
    simp only [List.length_cons] at hc hd
    obtain ⟨h1, h2, h3⟩ :=
      addEvent_step s e (by omega) (by omega)
    have hih := ih (addEvent s e) (by omega) (by omega)
    simp only [submitAll, List.foldl_cons, List.length_cons] at hih ⊢
    constructor
    · rw [hih.1, h1]; omega
    · rw [hih.2]; omega

/-- Witness for C4: the amended accounting applied to two submissions into
a profiler whose buffer holds a single event (the second attempt drops). -/
theorem C4_witness :
    (submitAll { buffer_size := 1 } [{}, {}]).events_captured =
      ({ buffer_size := 1 } : ProfilerState).events_captured +
        ([{}, {}] : List TraceEvent).length ∧
    (submitAll { buffer_size := 1 } [{}, {}]).events_dropped +
        (submitAll { buffer_size := 1 } [{}, {}]).events.length =
      ({ buffer_size := 1 } : ProfilerState).events_dropped +
        ({ buffer_size := 1 } : ProfilerState).events.length +
        ([{}, {}] : List TraceEvent).length :=
  C4_drop_accounting { buffer_size := 1 } [{}, {}] (by decide) (by decide)

/-- Counterexample for C4 as stated: two submissions into a one-slot
buffer give events_captured = 2 and events_dropped = 1, so
events_captured + events_dropped = 3 is not the number of submission
attempts (2): the dropped attempt is counted in both counters. -/
theorem C4_counterexample :
    (submitAll { buffer_size := 1 } [{}, {}]).events_captured = 2 ∧
    (submitAll { buffer_size := 1 } [{}, {}]).events_dropped = 1 ∧
    (submitAll { buffer_size := 1 } [{}, {}]).events_captured +
      (submitAll { buffer_size := 1 } [{}, {}]).events_dropped ≠ 2 := by
  decide

end ROCmProfiler

/-! ## Stop replies (src/gdb/rsp_handler.cpp, rsp_packet.cpp hex helpers) -/

namespace RSPPacket

/-- One lowercase hexadecimal digit as a character. -/
def hexDigitChar (d : Nat) : Char := Char.ofNat (hexDigitCode d)

/-- One byte in %02x form, as produced by RSPPacket::toHex on each byte of
a byte vector. -/
def byteToHex (b : Nat) : String :=
  String.mk [hexDigitChar (b / 16 % 16), hexDigitChar (b % 16)]

/-- RSPPacket::toHex(vector of bytes): each byte in %02x form. -/
def bytesToHex (bs : List Nat) : String := String.join (bs.map byteToHex)

/-- The auto-size loop of RSPPacket::toHex(uint64_t, 0): the little-endian
bytes of the value, fewest first, one zero byte for value zero.  The
explicit bound of eight iterations is exact for a uint64 argument. -/
def autoBytesAux : Nat → Nat → List Nat
  | 0, _ => []
  | fuel + 1, v => if v = 0 then [] else v % 256 :: autoBytesAux fuel (v / 256)

/-- The byte list produced by RSPPacket::toHex(uint64_t, 0). -/
def autoBytes (v : Nat) : List Nat :=
  if v = 0 then [0] else autoBytesAux 8 v

/-- The fixed-width loop of RSPPacket::toHex(uint64_t, width): width / 2
little-endian bytes. -/
def fixedBytes : Nat → Nat → List Nat
  | 0, _ => []
  | n + 1, v => v % 256 :: fixedBytes n (v / 256)

/-- RSPPacket::toHex(uint64_t value, int width): hex of the little-endian
byte serialisation of the value - minimal length for width 0, otherwise
width / 2 bytes. -/
def toHexU64 (value : Nat) (width : Nat) : String :=
  if width = 0 then bytesToHex (autoBytes value)
  else bytesToHex (fixedBytes (width / 2) value)

end RSPPacket

/-- The standard hexadecimal numeral of a natural number, lowercase and
most-significant digit first - the reading of tid_hex in the spec (and what
std::hex stream output produces).  Sixteen digits cover any uint64. -/
def natHexAux : Nat → Nat → List Char
  | 0, _ => []
  | fuel + 1, v =>
    if v < 16 then [RSPPacket.hexDigitChar v]
    else natHexAux fuel (v / 16) ++ [RSPPacket.hexDigitChar (v % 16)]

/-- Standard hexadecimal numeral, see natHexAux. -/
def natHex (v : Nat) : String := String.mk (natHexAux 16 v)

/-- Stop reasons, from gdb_types.hpp. -/
inductive StopReason
  | None | Breakpoint | Watchpoint | Signal | Exited | GPUBreakpoint | GPUEvent
  deriving DecidableEq, Repr

/-- GDB signal codes, from gdb_types.hpp. -/
inductive GdbSignal
  | SigNone | SigHUP | SigINT | SigQUIT | SigTRAP | SigABRT
  | SigKILL | SigSEGV | SigTERM | SigCONT | SigSTOP
  deriving DecidableEq, Repr

/-- The C++ integer value of each signal code. -/
def GdbSignal.toInt : GdbSignal → Int
  | GdbSignal.SigNone => 0
  | GdbSignal.SigHUP => 1
  | GdbSignal.SigINT => 2
  | GdbSignal.SigQUIT => 3
  | GdbSignal.SigTRAP => 5
  | GdbSignal.SigABRT => 6
  | GdbSignal.SigKILL => 9
  | GdbSignal.SigSEGV => 11
  | GdbSignal.SigTERM => 15
  | GdbSignal.SigCONT => 18
  | GdbSignal.SigSTOP => 19

/-- Stop event from the target, from gdb_types.hpp. -/
structure StopEvent where
  reason : StopReason := StopReason.None
  signal : GdbSignal := GdbSignal.SigNone
  exit_code : Int := 0
  gpu_event : Option TraceEvent := none
  gpu_breakpoint : Option GPUBreakpoint := none
  pc : Nat := 0
  thread_id : Int := 0
  deriving DecidableEq, Repr

/-- C++ static_cast from a signed integer to uint64_t. -/
def intToU64 (v : Int) : Nat := (v % 2 ^ 64).toNat

/-- RSPHandler::formatStopReply: W plus the exit-code byte for process
exit; T plus the signal byte, the thread id via toHex(tid, 0) and a
trailing semicolon for breakpoints and signals; a synthetic T05 with the
thread id for GPU breakpoints; S05 otherwise. -/
def formatStopReply (e : StopEvent) : String :=
  match e.reason with
  | StopReason.Exited =>
    "W" ++ RSPPacket.toHexU64 (intToU64 e.exit_code) 2
  | StopReason.Breakpoint =>
    "T" ++ RSPPacket.toHexU64 (intToU64 e.signal.toInt) 2 ++
      "thread:" ++ RSPPacket.toHexU64 (intToU64 e.thread_id) 0 ++ ";"
  | StopReason.Signal =>
    "T" ++ RSPPacket.toHexU64 (intToU64 e.signal.toInt) 2 ++
      "thread:" ++ RSPPacket.toHexU64 (intToU64 e.thread_id) 0 ++ ";"
  | StopReason.GPUBreakpoint =>
    "T05thread:" ++ RSPPacket.toHexU64 (intToU64 e.thread_id) 0 ++ ";"
  | _ => "S05"

/-- C6 (amended): stop replies are exactly W followed by the exit-code
byte in %02x for process exit, T followed by the signal byte in %02x, the
text thread:, the thread id rendered by toHex(tid, 0) - the hex of its
minimal little-endian byte serialisation - and a semicolon for host
breakpoints and signals, and a synthetic T05 with the same thread-id
rendering for GPU breakpoints; for thread ids below 256 that rendering
coincides with the plain two-digit hexadecimal of the id (in general the
bytes appear reversed with respect to the hexadecimal numeral). -/
theorem C6_stop_reply_format (e : StopEvent) :
    (e.reason = StopReason.Breakpoint ∨ e.reason = StopReason.Signal →
      formatStopReply e =
        "T" ++ RSPPacket.toHexU64 (intToU64 e.signal.toInt) 2 ++
          "thread:" ++ RSPPacket.toHexU64 (intToU64 e.thread_id) 0 ++ ";") ∧
    (e.reason = StopReason.Exited →
      formatStopReply e = "W" ++ RSPPacket.toHexU64 (intToU64 e.exit_code) 2) ∧
    (e.reason = StopReason.GPUBreakpoint →
      formatStopReply e =
        "T05thread:" ++ RSPPacket.toHexU64 (intToU64 e.thread_id) 0 ++ ";") ∧
    (∀ v, v < 256 → RSPPacket.toHexU64 v 0 = RSPPacket.byteToHex v) := by
  refine ⟨?_, ?_, ?_, by decide⟩
  · rintro (h | h) <;> simp [formatStopReply, h]
  · intro h; simp [formatStopReply, h]
  · intro h; simp [formatStopReply, h]

/-- Witness for C6: the amended format theorem applied to a process-exit
stop event with exit code 3. -/
theorem C6_witness :
    formatStopReply { reason := StopReason.Exited, exit_code := 3 } =
      "W" ++ RSPPacket.toHexU64
        (intToU64 ({ reason := StopReason.Exited, exit_code := 3 : StopEvent}.exit_code)) 2 :=
  (C6_stop_reply_format { reason := StopReason.Exited, exit_code := 3 }).2.1 rfl

/-- Counterexample for C6 as stated: for a signal stop on thread id 4660
(hex 1234) the reply renders the thread id little-endian as 3412, not as
the hexadecimal numeral 1234 the claim describes. -/
theorem C6_counterexample :
    formatStopReply
        { reason := StopReason.Signal, signal := GdbSignal.SigTRAP,
          thread_id := 4660 } = "T05thread:3412;" ∧
    natHex 4660 = "1234" ∧
    formatStopReply
        { reason := StopReason.Signal, signal := GdbSignal.SigTRAP,
          thread_id := 4660 } ≠ "T05thread:" ++ natHex 4660 ++ ";" := by
  decide

/-! ## Software breakpoints (src/gdb/process_controller.cpp)

Process memory is a byte map (each cell below 256).  PTRACE_PEEKDATA and
PTRACE_POKEDATA move one 64-bit word of eight little-endian bytes; the OS
failure paths (errno after ptrace) are outside this model, which represents
the successful peek and poke. -/

/-- PTRACE_PEEKDATA at addr: the eight bytes from addr upward assembled
little-endian into one word. -/
def peekWord (m : Nat → Nat) (a : Nat) : Nat :=
  m a + 256 * (m (a + 1) + 256 * (m (a + 2) + 256 * (m (a + 3) +
    256 * (m (a + 4) + 256 * (m (a + 5) + 256 * (m (a + 6) + 256 * m (a + 7)))))))

/-- PTRACE_POKEDATA at addr: scatter the word w over the eight bytes from
addr upward, little-endian. -/
def pokeWord (m : Nat → Nat) (a w : Nat) : Nat → Nat := fun x =>
  if x = a then w % 256
  else if x = a + 1 then w / 256 % 256
  else if x = a + 2 then w / 256 ^ 2 % 256
  else if x = a + 3 then w / 256 ^ 3 % 256
  else if x = a + 4 then w / 256 ^ 4 % 256
  else if x = a + 5 then w / 256 ^ 5 % 256
  else if x = a + 6 then w / 256 ^ 6 % 256
  else if x = a + 7 then w / 256 ^ 7 % 256
  else m x

/-- ProcessController::insertBreakpointInstruction: peek the word at addr,
save its low byte (word & 0xFF), replace the low byte with the int3 opcode
(word & ~0xFFL | 0xCC, the complement mask written as its uint64 value),
poke the word back.  Returns the saved byte and the new memory. -/
def insertBreakpointInstruction (m : Nat → Nat) (a : Nat) : Nat × (Nat → Nat) :=
  let word := peekWord m a
  let original := word &&& 0xFF
  (original, pokeWord m a ((word &&& 0xFFFFFFFFFFFFFF00) ||| 0xCC))

/-- ProcessController::removeBreakpointInstruction: peek the word at addr,
restore the saved byte into its low byte (word & ~0xFFL | original), poke
it back. -/
def removeBreakpointInstruction (m : Nat → Nat) (a : Nat) (original : Nat) :
    Nat → Nat :=
  let word := peekWord m a
  pokeWord m a ((word &&& 0xFFFFFFFFFFFFFF00) ||| original)

/-- Software breakpoint record, from process_controller.hpp. -/
structure Breakpoint where
  id : Int := -1
  address : Nat := 0
  original_byte : Nat := 0
  enabled : Bool := true
  hit_count : Nat := 0
  deriving DecidableEq, Repr

/-- The breakpoint-related state of ProcessController: attachment flag,
process memory, the id-keyed breakpoint map, the address-to-id map and the
next breakpoint id. -/
structure PCState where
  attached : Bool := false
  mem : Nat → Nat := fun _ => 0
  breakpoints : Int → Option Breakpoint := fun _ => none
  addr_to_bp : Nat → Option Int := fun _ => none
  next_bp_id : Int := 1

/-- ProcessController::setBreakpoint: refuse when not attached; return the
existing id unchanged when a breakpoint already sits at the address;
otherwise allocate the next id, patch the trap instruction in and record
the breakpoint in both maps. -/
def setBreakpoint (s : PCState) (addr : Nat) : Int × PCState :=
  if s.attached = false then (-1, s)
  else
    match s.addr_to_bp addr with
    | some id => (id, s)
    | none =>
      let p := insertBreakpointInstruction s.mem addr
      let bp : Breakpoint :=
        { id := s.next_bp_id, address := addr, original_byte := p.1,
          enabled := true, hit_count := 0 }
      (s.next_bp_id,
        { s with
          mem := p.2
          next_bp_id := s.next_bp_id + 1
          breakpoints := fun i => if i = s.next_bp_id then some bp else s.breakpoints i
          addr_to_bp := fun x => if x = addr then some s.next_bp_id else s.addr_to_bp x })

/-- ProcessController::removeBreakpoint: unknown ids fail; otherwise
restore the original byte (only if the breakpoint is enabled) and erase
the breakpoint from both maps. -/
def removeBreakpoint (s : PCState) (bp_id : Int) : Bool × PCState :=
  match s.breakpoints bp_id with
  | none => (false, s)
  | some bp =>
    let m2 :=
      if bp.enabled then removeBreakpointInstruction s.mem bp.address bp.original_byte
      else s.mem
    (true,
      { s with
        mem := m2
        addr_to_bp := fun x => if x = bp.address then none else s.addr_to_bp x
        breakpoints := fun i => if i = bp_id then none else s.breakpoints i })

/-- ProcessController::enableBreakpoint: unknown ids fail; enabling an
already matching state succeeds unchanged; enabling re-inserts the trap
(re-reading the original byte into the record), disabling restores the
saved byte. -/
def enableBreakpoint (s : PCState) (bp_id : Int) (enable : Bool) : Bool × PCState :=
  match s.breakpoints bp_id with
  | none => (false, s)
  | some bp =>
    if bp.enabled = enable then (true, s)
    else if enable then
      let p := insertBreakpointInstruction s.mem bp.address
      (true,
        { s with
          mem := p.2
          breakpoints := fun i =>
            if i = bp_id then some { bp with original_byte := p.1, enabled := true }
            else s.breakpoints i })
    else
      (true,
        { s with
          mem := removeBreakpointInstruction s.mem bp.address bp.original_byte
          breakpoints := fun i =>
            if i = bp_id then some { bp with enabled := false }
            else s.breakpoints i })

/-! ### Word arithmetic for the breakpoint patch -/

theorem land255_eq_mod (w : Nat) : w &&& 0xFF = w % 256 := by
  have h : (0xFF : Nat) = 2 ^ 8 - 1 := rfl
  rw [h, Nat.and_pow_two_sub_one_eq_mod]

theorem land_mask_eq (w : Nat) (hw : w < 2 ^ 64) :
    w &&& 0xFFFFFFFFFFFFFF00 = 2 ^ 8 * (w / 2 ^ 8) := by
  have hmask : ∀ j, Nat.testBit 0xFFFFFFFFFFFFFF00 j =
      (decide (8 ≤ j) && decide (j < 64)) := by
    intro j
    rw [show (0xFFFFFFFFFFFFFF00 : Nat) = 2 ^ 8 * (2 ^ 56 - 1) by norm_num,
      Nat.testBit_mul_pow_two, Nat.testBit_two_pow_sub_one]
    by_cases h1 : 8 ≤ j
    · by_cases h2 : j < 64 <;> simp [h1, h2] <;> omega
    · simp [h1]
  apply Nat.eq_of_testBit_eq
  intro i
  rw [Nat.testBit_and, hmask i, Nat.testBit_mul_pow_two]
  by_cases h8 : 8 ≤ i
  · have hdd : (w / 256).testBit (i - 8) = w.testBit i := by
      rw [show (256 : Nat) = 2 ^ 8 by norm_num,
        ← Nat.shiftRight_eq_div_pow, Nat.testBit_shiftRight]
      congr 1
      omega
    by_cases h64 : i < 64
    · simp [h8, h64, hdd]
    · have hwi : w.testBit i = false :=
        Nat.testBit_lt_two_pow
          (lt_of_lt_of_le hw (Nat.pow_le_pow_right (by norm_num) (by omega)))
      simp [h8, h64, hdd, hwi]
  · simp [h8]

theorem patch_low_byte (w b : Nat) (hw : w < 2 ^ 64) (hb : b < 256) :
    (w &&& 0xFFFFFFFFFFFFFF00) ||| b = 256 * (w / 256) + b := by
  rw [land_mask_eq w hw]
  have hb' : b < 2 ^ 8 := by omega
  have := (Nat.mul_add_lt_is_or hb' (w / 2 ^ 8)).symm
  simpa using this

theorem peek_bytes (m : Nat → Nat) (a : Nat) (hm : ∀ x, m x < 256) :
    peekWord m a < 2 ^ 64 ∧
    peekWord m a % 256 = m a ∧
    peekWord m a / 256 % 256 = m (a + 1) ∧
    peekWord m a / 256 ^ 2 % 256 = m (a + 2) ∧
    peekWord m a / 256 ^ 3 % 256 = m (a + 3) ∧
    peekWord m a / 256 ^ 4 % 256 = m (a + 4) ∧
    peekWord m a / 256 ^ 5 % 256 = m (a + 5) ∧
    peekWord m a / 256 ^ 6 % 256 = m (a + 6) ∧
    peekWord m a / 256 ^ 7 % 256 = m (a + 7) := by
  have h0 := hm a
  have h1 := hm (a + 1)
  have h2 := hm (a + 2)
  have h3 := hm (a + 3)
  have h4 := hm (a + 4)
  have h5 := hm (a + 5)
  have h6 := hm (a + 6)
  have h7 := hm (a + 7)
  have hw : peekWord m a =
      m a + 256 * (m (a + 1) + 256 * (m (a + 2) + 256 * (m (a + 3) +
        256 * (m (a + 4) + 256 * (m (a + 5) +
          256 * (m (a + 6) + 256 * m (a + 7))))))) := rfl
  have d1 : peekWord m a / 256 =
      m (a + 1) + 256 * (m (a + 2) + 256 * (m (a + 3) +
        256 * (m (a + 4) + 256 * (m (a + 5) +
          256 * (m (a + 6) + 256 * m (a + 7)))))) := by
    rw [hw]
    omega
  have d2 : peekWord m a / 256 ^ 2 =
      m (a + 2) + 256 * (m (a + 3) + 256 * (m (a + 4) +
        256 * (m (a + 5) + 256 * (m (a + 6) + 256 * m (a + 7))))) := by
    rw [show (256 : Nat) ^ 2 = 256 * 256 by norm_num,
      ← Nat.div_div_eq_div_mul, d1]
    omega
  have d3 : peekWord m a / 256 ^ 3 =
      m (a + 3) + 256 * (m (a + 4) + 256 * (m (a + 5) +
        256 * (m (a + 6) + 256 * m (a + 7)))) := by
    rw [show (256 : Nat) ^ 3 = 256 ^ 2 * 256 by norm_num,
      ← Nat.div_div_eq_div_mul, d2]
    omega
  have d4 : peekWord m a / 256 ^ 4 =
      m (a + 4) + 256 * (m (a + 5) + 256 * (m (a + 6) + 256 * m (a + 7))) := by
    rw [show (256 : Nat) ^ 4 = 256 ^ 3 * 256 by norm_num,
      ← Nat.div_div_eq_div_mul, d3]
    omega
  have d5 : peekWord m a / 256 ^ 5 =
      m (a + 5) + 256 * (m (a + 6) + 256 * m (a + 7)) := by
    rw [show (256 : Nat) ^ 5 = 256 ^ 4 * 256 by norm_num,
      ← Nat.div_div_eq_div_mul, d4]
    omega
  have d6 : peekWord m a / 256 ^ 6 = m (a + 6) + 256 * m (a + 7) := by
    rw [show (256 : Nat) ^ 6 = 256 ^ 5 * 256 by norm_num,
      ← Nat.div_div_eq_div_mul, d5]
    omega
  have d7 : peekWord m a / 256 ^ 7 = m (a + 7) := by
    rw [show (256 : Nat) ^ 7 = 256 ^ 6 * 256 by norm_num,
      ← Nat.div_div_eq_div_mul, d6]
    omega
  refine ⟨by rw [hw]; omega, by rw [hw]; omega, by rw [d1]; omega,
    by rw [d2]; omega, by rw [d3]; omega, by rw [d4]; omega,
    by rw [d5]; omega, by rw [d6]; omega, by rw [d7]; omega⟩

/-- The effect of poking back the peeked word with its low byte replaced
by b: the byte at the address becomes b, every other byte of memory (the
other seven bytes of the word included) is unchanged, and all bytes stay
below 256. -/
theorem poke_patched (m : Nat → Nat) (a b : Nat) (hm : ∀ x, m x < 256)
    (hb : b < 256) :
    pokeWord m a ((peekWord m a &&& 0xFFFFFFFFFFFFFF00) ||| b) a = b ∧
    (∀ x, x ≠ a →
      pokeWord m a ((peekWord m a &&& 0xFFFFFFFFFFFFFF00) ||| b) x = m x) ∧
    (∀ x, pokeWord m a ((peekWord m a &&& 0xFFFFFFFFFFFFFF00) ||| b) x < 256) := by
  obtain ⟨hlt, hp0, hp1, hp2, hp3, hp4, hp5, hp6, hp7⟩ := peek_bytes m a hm
  have hpatch : (peekWord m a &&& 0xFFFFFFFFFFFFFF00) ||| b =
      256 * (peekWord m a / 256) + b := patch_low_byte (peekWord m a) b hlt hb
  rw [hpatch]
  have q1 : (256 * (peekWord m a / 256) + b) / 256 = peekWord m a / 256 := by
    omega
  have qk : ∀ k, (256 * (peekWord m a / 256) + b) / 256 ^ (k + 1) =
      peekWord m a / 256 ^ (k + 1) := by
    intro k
    calc (256 * (peekWord m a / 256) + b) / 256 ^ (k + 1)
        = (256 * (peekWord m a / 256) + b) / 256 / 256 ^ k := by
          rw [Nat.div_div_eq_div_mul, pow_succ']
      _ = peekWord m a / 256 / 256 ^ k := by rw [q1]
      _ = peekWord m a / 256 ^ (k + 1) := by
          rw [Nat.div_div_eq_div_mul, ← pow_succ']
  have q2 := qk 1
  have q3 := qk 2
  have q4 := qk 3
  have q5 := qk 4
  have q6 := qk 5
  have q7 := qk 6
  norm_num at q2 q3 q4 q5 q6 q7
  norm_num at hp2 hp3 hp4 hp5 hp6 hp7
  refine ⟨?_, ?_, ?_⟩
  · simp [pokeWord, Nat.mul_add_mod, Nat.mod_eq_of_lt hb]
  · intro x hx
    simp only [pokeWord, if_neg hx]
    rcases eq_or_ne x (a + 1) with rfl | hx1
    · rw [if_pos rfl, q1, hp1]
    rw [if_neg hx1]
    rcases eq_or_ne x (a + 2) with rfl | hx2
    · rw [if_pos rfl]
      norm_num
      rw [q2, hp2]
    rw [if_neg hx2]
    rcases eq_or_ne x (a + 3) with rfl | hx3
    · rw [if_pos rfl]
      norm_num
      rw [q3, hp3]
    rw [if_neg hx3]
    rcases eq_or_ne x (a + 4) with rfl | hx4
    · rw [if_pos rfl]
      norm_num
      rw [q4, hp4]
    rw [if_neg hx4]
    rcases eq_or_ne x (a + 5) with rfl | hx5
    · rw [if_pos rfl]
      norm_num
      rw [q5, hp5]
    rw [if_neg hx5]
    rcases eq_or_ne x (a + 6) with rfl | hx6
    · rw [if_pos rfl]
      norm_num
      rw [q6, hp6]
    rw [if_neg hx6]
    rcases eq_or_ne x (a + 7) with rfl | hx7
    · rw [if_pos rfl]
      norm_num
      rw [q7, hp7]
    rw [if_neg hx7]
  · intro x
    simp only [pokeWord]
    split_ifs <;> first | omega | exact hm x

/-- C9: setBreakpoint is idempotent per address - when not detached and a
breakpoint already exists at the address, it returns the existing id and
the whole controller state (memory, saved byte, both maps, next id) is
unchanged: no second entry, no second memory patch. -/
theorem C9_setBreakpoint_idempotent (s : PCState) (addr : Nat) (id : Int)
    (hatt : s.attached = true) (hex : s.addr_to_bp addr = some id) :
    setBreakpoint s addr = (id, s) := by
  have hattne : ¬ s.attached = false := by simp [hatt]
  simp [setBreakpoint, if_neg hattne, hex]

/-- A concrete attached controller with one breakpoint (id 7) at address
100 over NOP-filled memory. -/
def pcWithBp : PCState :=
  { attached := true
    mem := fun _ => 0x90
    breakpoints := fun i =>
      if i = 7 then some { id := 7, address := 100, original_byte := 0x90 } else none
    addr_to_bp := fun x => if x = 100 then some 7 else none
    next_bp_id := 8 }

/-- Witness for C9: setting a breakpoint where id 7 already sits returns 7
and the untouched state. -/
theorem C9_witness : setBreakpoint pcWithBp 100 = (7, pcWithBp) :=
  C9_setBreakpoint_idempotent pcWithBp 100 7 rfl rfl

/-- C7: breakpoint byte preservation.  On an attached controller with
byte-valued memory and no breakpoint at the address yet: set patches the
trap opcode 0xCC into the byte at the address, stores the previous byte in
the new breakpoint record, and changes no other byte (the other seven
bytes of the patched word included); set followed by removeBreakpoint - or
by disabling via enableBreakpoint - restores every byte of memory to its
pre-set value. -/
theorem removeBreakpoint_mem (s1 : PCState) (id : Int) (bp : Breakpoint)
    (hbp : s1.breakpoints id = some bp) (hen : bp.enabled = true) :
    (removeBreakpoint s1 id).2.mem =
      removeBreakpointInstruction s1.mem bp.address bp.original_byte := by
  simp only [removeBreakpoint, hbp]
  simp [hen]

theorem disableBreakpoint_mem (s1 : PCState) (id : Int) (bp : Breakpoint)
    (hbp : s1.breakpoints id = some bp) (hen : bp.enabled = true) :
    (enableBreakpoint s1 id false).2.mem =
      removeBreakpointInstruction s1.mem bp.address bp.original_byte := by
  simp only [enableBreakpoint, hbp]
  simp [hen]

theorem C7_breakpoint_byte_preservation (s : PCState) (addr : Nat)
    (hm : ∀ x, s.mem x < 256) (hatt : s.attached = true)
    (hnew : s.addr_to_bp addr = none) :
    (setBreakpoint s addr).2.mem addr = 0xCC ∧
    (∀ x, x ≠ addr → (setBreakpoint s addr).2.mem x = s.mem x) ∧
    (setBreakpoint s addr).2.breakpoints (setBreakpoint s addr).1 =
      some { id := s.next_bp_id, address := addr,
             original_byte := s.mem addr, enabled := true, hit_count := 0 } ∧
    (∀ x,
      (removeBreakpoint (setBreakpoint s addr).2 (setBreakpoint s addr).1).2.mem x
        = s.mem x) ∧
    (∀ x,
      (enableBreakpoint (setBreakpoint s addr).2 (setBreakpoint s addr).1 false).2.mem x
        = s.mem x) := by
  have hattne : ¬ s.attached = false := by simp [hatt]
  have horig : (insertBreakpointInstruction s.mem addr).1 = s.mem addr := by
    have h1 : (insertBreakpointInstruction s.mem addr).1 =
        peekWord s.mem addr &&& 0xFF := rfl
    rw [h1, land255_eq_mod, (peek_bytes s.mem addr hm).2.1]
  have hins2 : (insertBreakpointInstruction s.mem addr).2 =
      pokeWord s.mem addr
        ((peekWord s.mem addr &&& 0xFFFFFFFFFFFFFF00) ||| 0xCC) := rfl
  obtain ⟨hA, hB, hC⟩ :=
    poke_patched s.mem addr 0xCC hm (by norm_num)
  have hset : setBreakpoint s addr =
      (s.next_bp_id,
        { s with
          mem := (insertBreakpointInstruction s.mem addr).2
          next_bp_id := s.next_bp_id + 1
          breakpoints := fun i =>
            if i = s.next_bp_id then
              some { id := s.next_bp_id, address := addr,
                     original_byte := (insertBreakpointInstruction s.mem addr).1,
                     enabled := true, hit_count := 0 }
            else s.breakpoints i
          addr_to_bp := fun x =>
            if x = addr then some s.next_bp_id else s.addr_to_bp x }) := by
    rw [setBreakpoint, if_neg hattne, hnew]
  have hmemset : (setBreakpoint s addr).2.mem =
      (insertBreakpointInstruction s.mem addr).2 := by
    rw [hset]
  have hbp1 : (setBreakpoint s addr).2.breakpoints (setBreakpoint s addr).1 =
      some { id := s.next_bp_id, address := addr,
             original_byte := (insertBreakpointInstruction s.mem addr).1,
             enabled := true, hit_count := 0 } := by
    rw [hset]
    simp
  have hmem1 : ∀ x, (insertBreakpointInstruction s.mem addr).2 x < 256 := by
    intro x
    rw [hins2]
    exact hC x
  obtain ⟨hA2, hB2, -⟩ :=
    poke_patched ((insertBreakpointInstruction s.mem addr).2) addr
      (s.mem addr) hmem1 (hm addr)
  have hrestore : ∀ x,
      removeBreakpointInstruction ((insertBreakpointInstruction s.mem addr).2)
        addr (s.mem addr) x = s.mem x := by
    intro x
    rcases eq_or_ne x addr with rfl | hx
    · exact hA2
    · have hout : removeBreakpointInstruction
          ((insertBreakpointInstruction s.mem addr).2) addr (s.mem addr) x =
          (insertBreakpointInstruction s.mem addr).2 x := hB2 x hx
      rw [hout, hins2]
      exact hB x hx
  refine ⟨by rw [hmemset, hins2]; exact hA, ?_, ?_, ?_, ?_⟩
  · intro x hx
    rw [hmemset, hins2]
    exact hB x hx
  · rw [hbp1, horig]
  · intro x
    rw [removeBreakpoint_mem _ _ _ hbp1 rfl]
    dsimp only
    rw [hmemset, horig]
    exact hrestore x
  · intro x
    rw [disableBreakpoint_mem _ _ _ hbp1 rfl]
    dsimp only
    rw [hmemset, horig]
    exact hrestore x

/-- A concrete attached controller with NOP-filled memory and no
breakpoints. -/
def pcFresh : PCState := { attached := true, mem := fun _ => 0x90 }

/-- Witness for C7: setting a breakpoint at address 100 of the fresh
controller writes the 0xCC trap byte there. -/
theorem C7_witness : (setBreakpoint pcFresh 100).2.mem 100 = 0xCC :=
  (C7_breakpoint_byte_preservation pcFresh 100
    (by intro x; norm_num [pcFresh]) rfl rfl).1

/-! ## RSP command dispatch (src/gdb/rsp_handler.cpp)

The packet handlers below mirror RSPHandler::handlePacket and the handlers
it dispatches to.  Everything that crosses into the process controller or
the GPU engine (register images, memory, stop events, thread lists, the
monitor command processor) is abstracted as a field of RSPEnv; the string
parsing and response construction is translated from the source.  The
QStartNoAckMode flag write is a side effect on the handler and does not
change the returned response, which is what is modelled here. -/

/-- std::string::find of a character (none for npos). -/
def strFindChar (s : String) (c : Char) : Option Nat :=
  s.data.findIdx? (fun d => d = c)

/-- std::string::find of a character from a start position. -/
def strFindFrom (s : String) (c : Char) (start : Nat) : Option Nat :=
  ((s.data.drop start).findIdx? (fun d => d = c)).map (fun i => i + start)

/-- std::string::substr(pos): the suffix from pos. -/
def strDrop (s : String) (n : Nat) : String := String.mk (s.data.drop n)

/-- std::string::substr(pos, count). -/
def strSub (s : String) (pos len : Nat) : String :=
  String.mk ((s.data.drop pos).take len)

/-- operator[] on a std::string, defaulted to NUL out of range. -/
def strGetD (s : String) (i : Nat) : Char := s.data.getD i (Char.ofNat 0)

/-- isspace on a character. -/
def isSpaceChar (c : Char) : Bool :=
  c.toNat = 32 ∨ (9 ≤ c.toNat ∧ c.toNat ≤ 13)

/-- C++ cast of a uint64 value to a 32-bit signed int (two's complement
low word). -/
def castU64ToInt (v : Nat) : Int :=
  let r : Nat := v % 2 ^ 32
  if r < 2 ^ 31 then (r : Int) else (r : Int) - 2 ^ 32

namespace RSPPacket

/-- The value of the longest hex-digit run of a character list, with the
count of digits consumed. -/
def hexRunChars : List Char → Nat → Nat → Nat × Nat
  | [], acc, n => (acc, n)
  | c :: rest, acc, n =>
    match hexVal? c.toNat with
    | some v => hexRunChars rest (16 * acc + v) (n + 1)
    | none => (acc, n)

/-- RSPPacket::hexToUint64: std::stoull(hex, nullptr, 16) with every
exception mapped to 0 - skip whitespace, accept an optional sign (a
negative value wraps modulo 2^64) and an optional 0x prefix, parse the
longest hex run; no digit or a magnitude beyond the uint64 range gives
0. -/
def hexToUint64 (s : String) : Nat :=
  let l1 := s.data.dropWhile (fun c => isSpaceChar c)
  let neg := strGetD (String.mk l1) 0 = '-'
  let l2 := if strGetD (String.mk l1) 0 = '-' ∨ strGetD (String.mk l1) 0 = '+'
    then l1.tail else l1
  let l3 :=
    match l2 with
    | '0' :: x :: rest => if x = 'x' ∨ x = 'X' then rest else l2
    | _ => l2
  let p := hexRunChars l3 0 0
  if p.2 = 0 then 0
  else if p.1 ≥ 2 ^ 64 then 0
  else if neg then (2 ^ 64 - p.1 % 2 ^ 64) % 2 ^ 64 else p.1

/-- The pair loop of RSPPacket::fromHex: std::stoi on each two-character
slice parses the longest valid prefix, so a valid first digit with an
invalid second still yields that digit's value; an invalid first digit
throws, which the loop catches and turns into stopping. -/
def fromHexPairs : List Char → List Nat
  | c1 :: c2 :: rest =>
    match hexVal? c1.toNat with
    | none => []
    | some v1 =>
      match hexVal? c2.toNat with
      | some v2 => (16 * v1 + v2) :: fromHexPairs rest
      | none => v1 :: fromHexPairs rest
  | _ => []

/-- RSPPacket::fromHex: an odd-length string contributes its first digit
as a byte of its own (an invalid leading digit would escape as an uncaught
exception in the source; the model returns the empty list there), then
bytes are parsed two digits at a time until invalid input stops the
loop. -/
def fromHex (hex : String) : List Nat :=
  if hex.data.length % 2 = 1 then
    match hexVal? (strGetD hex 0).toNat with
    | some v => v :: fromHexPairs hex.data.tail
    | none => []
  else fromHexPairs hex.data

end RSPPacket

/-- A parsed qXxx query, from rsp_packet.hpp. -/
structure RSPQuery where
  name : String := ""
  args : List String := []
  deriving DecidableEq, Repr

/-- Split a character list at every colon, keeping empty middle pieces. -/
def splitAux : List Char → List Char → List String
  | [], cur => [String.mk cur.reverse]
  | c :: rest, cur =>
    if c = ':' then String.mk cur.reverse :: splitAux rest []
    else splitAux rest (c :: cur)

/-- The argument-splitting loop of RSPQuery::parse: pieces between colons
in order; the piece after the final colon only when non-empty. -/
def splitColons (l : List Char) : List String :=
  let parts := splitAux l []
  if parts.getLast? = some "" then parts.dropLast else parts

/-- RSPQuery::parse: the name is everything before the first colon (the
whole query when there is none) and the arguments are the colon-separated
pieces after it. -/
def RSPQuery.parse (query : String) : RSPQuery :=
  if query = "" then {}
  else
    match query.data.findIdx? (fun c => c = ':') with
    | none => { name := query }
    | some i =>
      { name := String.mk (query.data.take i)
        args := splitColons (query.data.drop (i + 1)) }

/-- Packet commands, from rsp_packet.hpp. -/
inductive RSPPacketType
  | ReadRegisters | WriteRegisters | ReadMemory | WriteMemory | BinaryWrite
  | Continue | ContinueSignal | Step | StepSignal | Kill | Detach
  | InsertBreakpoint | RemoveBreakpoint | Query | QuerySet | VCommand
  | ExtendedMode | RestartReason | ThreadAlive | SetThread
  | Ack | Nack | Interrupt | Unknown
  deriving DecidableEq, Repr

/-- RSPPacket::parseType: dispatch on the first character of the
payload. -/
def RSPPacket.parseType (data : String) : RSPPacketType :=
  if data = "" then RSPPacketType.Unknown
  else
    let cmd := strGetD data 0
    if cmd = 'g' then RSPPacketType.ReadRegisters
    else if cmd = 'G' then RSPPacketType.WriteRegisters
    else if cmd = 'm' then RSPPacketType.ReadMemory
    else if cmd = 'M' then RSPPacketType.WriteMemory
    else if cmd = 'X' then RSPPacketType.BinaryWrite
    else if cmd = 'c' then RSPPacketType.Continue
    else if cmd = 'C' then RSPPacketType.ContinueSignal
    else if cmd = 's' then RSPPacketType.Step
    else if cmd = 'S' then RSPPacketType.StepSignal
    else if cmd = 'k' then RSPPacketType.Kill
    else if cmd = 'D' then RSPPacketType.Detach
    else if cmd = 'Z' then RSPPacketType.InsertBreakpoint
    else if cmd = 'z' then RSPPacketType.RemoveBreakpoint
    else if cmd = 'q' then RSPPacketType.Query
    else if cmd = 'Q' then RSPPacketType.QuerySet
    else if cmd = 'v' then RSPPacketType.VCommand
    else if cmd = '!' then RSPPacketType.ExtendedMode
    else if cmd = '?' then RSPPacketType.RestartReason
    else if cmd = 'T' then RSPPacketType.ThreadAlive
    else if cmd = 'H' then RSPPacketType.SetThread
    else if cmd = '+' then RSPPacketType.Ack
    else if cmd = '-' then RSPPacketType.Nack
    else if cmd = Char.ofNat 3 then RSPPacketType.Interrupt
    else RSPPacketType.Unknown

/-- The process-controller and GPU-engine surface consumed by the packet
handlers, abstracted: each field is the result the corresponding call
would produce (the handlers only forward these values into response
strings). -/
structure RSPEnv where
  readRegistersHex : String := ""
  writeRegisters : String → Bool := fun _ => false
  readMemory : Nat → Nat → List Nat := fun _ _ => []
  writeMemory : Nat → List Nat → Bool := fun _ _ => false
  continueStop : Int → StopEvent := fun _ => {}
  stepStop : Int → StopEvent := fun _ => {}
  setBreakpoint : Nat → Int := fun _ => -1
  removeBreakpointAt : Nat → Bool := fun _ => false
  selectThread : Int → Bool := fun _ => false
  isThreadAlive : Int → Bool := fun _ => false
  threads : List Nat := []
  currentThread : Nat := 0
  monitor : String → String := fun _ => ""
  maxPacketSize : Nat := 4096

/-- RSPHandler::handleReadMemory. -/
def handleReadMemory (env : RSPEnv) (addr len : Nat) : String :=
  let data := env.readMemory addr len
  if data = [] then "E01" else RSPPacket.bytesToHex data

/-- RSPHandler::handleWriteMemory. -/
def handleWriteMemory (env : RSPEnv) (addr : Nat) (data : String) : String :=
  if env.writeMemory addr (RSPPacket.fromHex data) then "OK" else "E01"

/-- RSPHandler::handleContinue: resume, wait for the stop event, format
it. -/
def handleContinue (env : RSPEnv) (signal : Int) : String :=
  formatStopReply (env.continueStop signal)

/-- RSPHandler::handleStep. -/
def handleStep (env : RSPEnv) (signal : Int) : String :=
  formatStopReply (env.stepStop signal)

/-- RSPHandler::handleBreakpoint: only software breakpoints (type 0) are
supported, other types answer with the empty payload. -/
def handleBreakpoint (env : RSPEnv) (op : Char) (type : Int) (addr : Nat) : String :=
  if type ≠ 0 then ""
  else if op = 'Z' then
    if env.setBreakpoint addr ≥ 0 then "OK" else "E01"
  else
    if env.removeBreakpointAt addr then "OK" else "E01"

/-- RSPHandler::handleThreadOps. -/
def handleThreadOps (env : RSPEnv) (args : String) : String :=
  if args = "" ∨ args = "-1" ∨ args = "0" then "OK"
  else if env.selectThread (castU64ToInt (RSPPacket.hexToUint64 args)) then "OK"
  else "E01"

/-- RSPHandler::handleQuery. -/
def handleQuery (env : RSPEnv) (query : String) : String :=
  let q := RSPQuery.parse query
  if q.name = "Supported" then
    "PacketSize=" ++ natHex env.maxPacketSize ++
      ";qXfer:features:read+;QStartNoAckMode+;multiprocess+"
  else if q.name = "Attached" then "1"
  else if q.name = "fThreadInfo" then
    if env.threads = [] then "l"
    else "m" ++ String.intercalate "," (env.threads.map natHex)
  else if q.name = "sThreadInfo" then "l"
  else if q.name = "C" then "QC" ++ natHex env.currentThread
  else if q.name = "Rcmd" then
    match q.args with
    | a :: _ =>
      env.monitor (String.mk ((RSPPacket.fromHex a).map Char.ofNat))
    | [] => "E01"
  else ""

/-- RSPHandler::handleQuerySet (the no-ack flag flip is a handler side
effect, the response is OK). -/
def handleQuerySet (_env : RSPEnv) (query : String) : String :=
  let q := RSPQuery.parse query
  if q.name = "StartNoAckMode" then "OK" else ""

/-- RSPHandler::handleVCommand. -/
def handleVCommand (env : RSPEnv) (cmd : String) : String :=
  if cmd.data.take 5 = "Cont;".data then
    let action := strDrop cmd 5
    if strGetD action 0 = 'c' then handleContinue env 0
    else if strGetD action 0 = 's' then handleStep env 0
    else ""
  else if cmd.data.take 5 = "Cont?".data then "vCont;c;C;s;S"
  else ""

/-- The Z and z packet parsing of RSPHandler::handlePacket. -/
def handleZPacket (env : RSPEnv) (packet : String) : String :=
  if packet.data.length < 5 then "E01"
  else
    let op := strGetD packet 0
    let bpType : Int := ((strGetD packet 1).toNat : Int) - 48
    match strFindChar packet ',' with
    | none => "E01"
    | some c1 =>
      match strFindFrom packet ',' (c1 + 1) with
      | none => "E01"
      | some c2 =>
        let addr := RSPPacket.hexToUint64 (strSub packet (c1 + 1) (c2 - c1 - 1))
        handleBreakpoint env op bpType addr

/-- RSPHandler::handlePacket: dispatch on the command character.  The
default branch - reached for every command without a case, BinaryWrite
included - answers with the empty string. -/
def handlePacket (env : RSPEnv) (packet : String) : String :=
  if packet = "" then ""
  else
    match RSPPacket.parseType packet with
    | RSPPacketType.ReadRegisters => env.readRegistersHex
    | RSPPacketType.WriteRegisters =>
      if env.writeRegisters (strDrop packet 1) then "OK" else "E01"
    | RSPPacketType.ReadMemory =>
      match strFindChar packet ',' with
      | none => "E01"
      | some comma =>
        handleReadMemory env
          (RSPPacket.hexToUint64 (strSub packet 1 (comma - 1)))
          (RSPPacket.hexToUint64 (strDrop packet (comma + 1)))
    | RSPPacketType.WriteMemory =>
      match strFindChar packet ',', strFindChar packet ':' with
      | some comma, some colon =>
        handleWriteMemory env
          (RSPPacket.hexToUint64 (strSub packet 1 (comma - 1)))
          (strDrop packet (colon + 1))
      | _, _ => "E01"
    | RSPPacketType.Continue => handleContinue env 0
    | RSPPacketType.ContinueSignal =>
      handleContinue env (castU64ToInt (RSPPacket.hexToUint64 (strSub packet 1 2)))
    | RSPPacketType.Step => handleStep env 0
    | RSPPacketType.StepSignal =>
      handleStep env (castU64ToInt (RSPPacket.hexToUint64 (strSub packet 1 2)))
    | RSPPacketType.Kill => "OK"
    | RSPPacketType.Detach => "OK"
    | RSPPacketType.InsertBreakpoint => handleZPacket env packet
    | RSPPacketType.RemoveBreakpoint => handleZPacket env packet
    | RSPPacketType.Query => handleQuery env (strDrop packet 1)
    | RSPPacketType.QuerySet => handleQuerySet env (strDrop packet 1)
    | RSPPacketType.VCommand => handleVCommand env (strDrop packet 1)
    | RSPPacketType.RestartReason => "S05"
    | RSPPacketType.SetThread => handleThreadOps env (strDrop packet 2)
    | RSPPacketType.ThreadAlive =>
      if env.isThreadAlive (castU64ToInt (RSPPacket.hexToUint64 (strDrop packet 1)))
      then "OK" else "E01"
    | RSPPacketType.ExtendedMode => "OK"
    | _ => ""

/-- The response transmission of RSPHandler::run: the handler result is
encoded and sent only when it is non-empty; an empty handler result sends
nothing at all. -/
def sentResponse (env : RSPEnv) (packet : String) : Option (List Nat) :=
  if (handlePacket env packet).isEmpty then none
  else some (RSPPacket.encode (strBytes (handlePacket env packet)))

/-- C5: the well-formed packet frame with payload U - an unsupported
command - decodes correctly, the dispatcher answers it with the empty
string, and the run loop then sends nothing at all: the code leaves
well-formed unsupported packets unanswered instead of replying with the
empty payload the spec requires. -/
theorem C5_unsupported_packet_unanswered (env : RSPEnv) :
    RSPPacket.decode (strBytes "$U#55") = some (strBytes "U") ∧
    handlePacket env "U" = "" ∧
    sentResponse env "U" = none :=
  ⟨by decide, rfl, rfl⟩

end TraceSmith
